import Mathlib

/-!
Verification of the Convoy webhook-delivery service specification against the
repository's source. Entities and operations are shallowly embedded: Go structs
become Lean structures, `primitive.DateTime` (an int64 millisecond timestamp)
becomes `Int`, fallible repository calls become `Except`-valued oracles, and
each service method is a pure function that also returns the ordered list of
repository calls it made.
-/

set_option maxRecDepth 4096

/-- Document status of a persisted record: `Active` or `Deleted`. -/
inductive DocumentStatus
  | Active
  | Deleted
  deriving DecidableEq, Repr

namespace convoy

/-- Application entity (only the fields the embedded code reads: `uid`,
`group_id`, `title`). `Group.IsOwner` in `group.go` reads `a.GroupID`. -/
structure Application where
  UID : String
  GroupID : String
  Title : String
  deriving DecidableEq, Repr

/-- The `Group` struct from `group.go` (package `convoy`): uid, name, logo_url,
created_at / updated_at / deleted_at timestamps, document_status. The Mongo
`_id` field is omitted (opaque to all embedded code). -/
structure Group where
  UID : String
  Name : String
  LogoURL : String
  CreatedAt : Int
  UpdatedAt : Int
  DeletedAt : Int
  DocumentStatus : DocumentStatus
  deriving DecidableEq, Repr

/-- `func (o *Group) IsDeleted() bool /- ... -/ return o.DeletedAt > 0` from `group.go`. -/
def Group.IsDeleted (o : Group) : Bool :=
  decide (o.DeletedAt > 0)

/-- `func (o *Group) IsOwner(a *Application) bool /- ... -/ return o.UID == a.GroupID` from `group.go`. -/
def Group.IsOwner (o : Group) (a : Application) : Bool :=
  o.UID == a.GroupID

/-- Shape of an operation a group repository contract may expose; `load` records
whether the load operation accepts a filter argument. -/
inductive RepoOp
  | load (withFilter : Bool)
  | fetchByID
  | fetchByIDs
  | create
  | update
  | delete
  deriving DecidableEq, Repr

/-- The operations of the `GroupRepository` interface declared in `group.go`:
`LoadGroups(context.Context)` (no filter argument), `CreateGroup`,
`UpdateGroup`, `FetchGroupByID`, in declaration order. -/
def groupRepositoryOps : List RepoOp :=
  [.load false, .create, .update, .fetchByID]

/-- The group repository contract as the spec words it (for comparison with
`groupRepositoryOps`): load-with-names-filter, fetch-by-id, fetch-by-ids,
create, update, delete. -/
def specGroupRepositoryOps : List RepoOp :=
  [.load true, .fetchByID, .fetchByIDs, .create, .update, .delete]

end convoy

namespace datastore

/-- Statistics block attached to a group by `FillGroupStatistics`:
`messages_sent` and `total_apps`. -/
structure GroupStatistics where
  messagesSent : Int
  totalApps : Int
  deriving DecidableEq, Repr

/-- Default strategy parameters: `interval_seconds` and `retry_limit`. -/
structure DefaultStrategyConfiguration where
  intervalSeconds : Nat
  retryLimit : Nat
  deriving DecidableEq, Repr

/-- Strategy configuration: `type` (only `"default"` is in scope) with its
default-strategy parameters. -/
structure StrategyConfiguration where
  type : String
  default : DefaultStrategyConfiguration
  deriving DecidableEq, Repr

/-- Signature configuration: outbound signature `header` and `hash` name. -/
structure SignatureConfiguration where
  header : String
  hash : String
  deriving DecidableEq, Repr

/-- Group configuration: strategy, signature, `disable_endpoint`,
`replay_attacks`. -/
structure GroupConfig where
  strategy : StrategyConfiguration
  signature : SignatureConfiguration
  disableEndpoint : Bool
  replayAttacks : Bool
  deriving DecidableEq, Repr

/-- The persisted `datastore.Group` document as the services and their tests
use it: uid, name, logo_url, rate limit settings, optional config, optional
statistics, timestamps and document status. -/
structure Group where
  uid : String
  name : String
  logoURL : String
  rateLimit : Nat
  rateLimitDuration : String
  config : Option GroupConfig
  statistics : Option GroupStatistics
  createdAt : Int
  updatedAt : Int
  deletedAt : Int
  documentStatus : DocumentStatus
  deriving DecidableEq, Repr

/-- Filter accepted by the group load operation: a list of group names. -/
structure GroupFilter where
  names : List String
  deriving DecidableEq, Repr

end datastore

namespace models

/-- The `models.Group` request body of CreateGroup / UpdateGroup: name,
logo_url, optional rate limit settings (zero values mean absent, as for Go
zero-valued fields), and the group configuration. -/
structure Group where
  name : String
  logoURL : String
  rateLimit : Nat
  rateLimitDuration : String
  config : datastore.GroupConfig
  deriving DecidableEq, Repr

end models

/-- A taxonomy error returned by a service: HTTP-mapped code and message
(mirrors `ServiceError.ErrCode()` and `ServiceError.Error()`). -/
structure ServiceError where
  errCode : Nat
  errMsg : String
  deriving DecidableEq, Repr

/-- `http.StatusBadRequest`. -/
def statusBadRequest : Nat := 400

/-- A repository call made by a service, recorded with its argument so that
call order and omission are provable. -/
inductive RepoCall
  | createGroup (uid : String)
  | loadGroups (names : List String)
  | deleteGroup (id : String)
  | deleteGroupApps (id : String)
  | deleteGroupEvents (id : String)
  | countGroupApplications (uid : String)
  | countGroupMessages (uid : String)
  | fetchGroupsByIDs (ids : List String)
  | createAPIKey (uid : String)
  deriving DecidableEq, Repr

/-- Group repository oracle: the behavior of the persistence layer for the
operations the group and security services invoke. -/
structure GroupRepo where
  createGroup : datastore.Group → Except String Unit
  loadGroups : datastore.GroupFilter → Except String (List datastore.Group)
  deleteGroup : String → Except String Unit
  fetchGroupsByIDs : List String → Except String (List datastore.Group)

/-- Application repository oracle: the operations the group service invokes. -/
structure AppRepo where
  countGroupApplications : String → Except String Int
  deleteGroupApps : String → Except String Unit

/-- Event repository oracle: the operations the group service invokes. -/
structure EventRepo where
  countGroupMessages : String → Except String Int
  deleteGroupEvents : String → Except String Unit

/-- The group service with its three repositories (`NewGroupService`). -/
structure GroupService where
  groupRepo : GroupRepo
  appRepo : AppRepo
  eventRepo : EventRepo

/-- Environment for one CreateGroup call: the freshly generated uid and the
current time (Go draws these from `uuid.New()` and `time.Now()`). -/
structure GroupEnv where
  genUID : String
  now : Int

/-- Supported signature hash functions (spec data model: SHA256, SHA512, MD5,
SHA1, SHA224, SHA384 and the SHA3 family). -/
def supportedHashes : List String :=
  ["MD5", "SHA1", "SHA224", "SHA256", "SHA384", "SHA512",
   "SHA3_224", "SHA3_256", "SHA3_384", "SHA3_512"]

/-- Modelled from the spec: CreateGroup/UpdateGroup validation of §4.4
(`group_service.go` is not under `src/`). Requires non-empty name,
`strategy.type = "default"`, `interval_seconds ≥ 1`, `retry_limit ≥ 1`,
non-empty signature header, supported signature hash; returns the
`field:detail` message of the first failing rule (messages for the name rule
and the strategy-type rule are the literal ones in the tests and §8). -/
def validateGroup (g : models.Group) : Option String :=
  if g.name = "" then some "name:please provide a valid name"
  else if g.config.strategy.type ≠ "default" then some "strategy.type:unsupported value"
  else if g.config.strategy.default.intervalSeconds < 1 then some "interval_seconds:please provide a valid interval"
  else if g.config.strategy.default.retryLimit < 1 then some "retry_limit:please provide a valid retry limit"
  else if g.config.signature.header = "" then some "header:please provide a valid header"
  else if ¬ supportedHashes.contains g.config.signature.hash then some "hash:unsupported value"
  else none

/-- Modelled from the spec: §4.4 `CreateGroup` (`group_service.go` is not
under `src/`). Validate the input; default `rate_limit` to 5000 and
`rate_limit_duration` to `"1m"` when they carry their zero values; build the
group with a fresh uid, Active document status and both timestamps set to now;
persist it, mapping a repository failure to a 400 "failed to create group". -/
def GroupService.CreateGroup (gs : GroupService) (env : GroupEnv)
    (newGroup : models.Group) : Except ServiceError datastore.Group :=
  match validateGroup newGroup with
  | some msg => .error ⟨statusBadRequest, msg⟩
  | none =>
    let rl := if newGroup.rateLimit = 0 then 5000 else newGroup.rateLimit
    let rld := if newGroup.rateLimitDuration = "" then "1m" else newGroup.rateLimitDuration
    let group : datastore.Group :=
      { uid := env.genUID
        name := newGroup.name
        logoURL := newGroup.logoURL
        rateLimit := rl
        rateLimitDuration := rld
        config := some newGroup.config
        statistics := none
        createdAt := env.now
        updatedAt := env.now
        deletedAt := 0
        documentStatus := .Active }
    match gs.groupRepo.createGroup group with
    | .error _ => .error ⟨statusBadRequest, "failed to create group"⟩
    | .ok _ => .ok group

/-- Modelled from the spec: §4.4 `DeleteGroup` (`group_service.go` is not
under `src/`). Delete the group, then its apps, then its events, stopping at
the first failure with a step-specific 400 error; also returns the ordered
trace of repository calls actually made. -/
def GroupService.DeleteGroup (gs : GroupService) (id : String) :
    Except ServiceError Unit × List RepoCall :=
  match gs.groupRepo.deleteGroup id with
  | .error _ => (.error ⟨statusBadRequest, "failed to delete group"⟩, [.deleteGroup id])
  | .ok _ =>
    match gs.appRepo.deleteGroupApps id with
    | .error _ =>
      (.error ⟨statusBadRequest, "failed to delete group apps"⟩,
       [.deleteGroup id, .deleteGroupApps id])
    | .ok _ =>
      match gs.eventRepo.deleteGroupEvents id with
      | .error _ =>
        (.error ⟨statusBadRequest, "failed to delete group events"⟩,
         [.deleteGroup id, .deleteGroupApps id, .deleteGroupEvents id])
      | .ok _ =>
        (.ok (), [.deleteGroup id, .deleteGroupApps id, .deleteGroupEvents id])

/-- Modelled from the spec: §4.4 `FillStatistics` (`group_service.go` is not
under `src/`). Count the group's applications and its messages (apps first,
matching the call expectations of the service tests); if either count fails
return a 400 "failed to count group statistics", otherwise return the group
with its statistics set; also returns the trace of repository calls made. -/
def GroupService.FillGroupStatistics (gs : GroupService) (g : datastore.Group) :
    Except ServiceError datastore.Group × List RepoCall :=
  match gs.appRepo.countGroupApplications g.uid with
  | .error _ =>
    (.error ⟨statusBadRequest, "failed to count group statistics"⟩,
     [.countGroupApplications g.uid])
  | .ok apps =>
    match gs.eventRepo.countGroupMessages g.uid with
    | .error _ =>
      (.error ⟨statusBadRequest, "failed to count group statistics"⟩,
       [.countGroupApplications g.uid, .countGroupMessages g.uid])
    | .ok msgs =>
      (.ok { g with statistics := some ⟨msgs, apps⟩ },
       [.countGroupApplications g.uid, .countGroupMessages g.uid])

/-- The per-group loop of `GetGroups`: fill statistics for every loaded group,
propagating the first failure. -/
def GroupService.fillAllStatistics (gs : GroupService) :
    List datastore.Group → Except ServiceError (List datastore.Group) × List RepoCall
  | [] => (.ok [], [])
  | g :: rest =>
    match gs.FillGroupStatistics g with
    | (.error e, t) => (.error e, t)
    | (.ok g', t) =>
      match gs.fillAllStatistics rest with
      | (.error e, t') => (.error e, t ++ t')
      | (.ok moreGroups, t') => (.ok (g' :: moreGroups), t ++ t')

/-- Embedding of Go `strings.TrimSpace`: drop whitespace characters from both
ends of the string, leaving the interior characters untouched. -/
def trimSpace (s : String) : String :=
  ⟨((s.data.dropWhile Char.isWhitespace).reverse.dropWhile Char.isWhitespace).reverse⟩

/-- Modelled from the spec: §4.4 `GetGroups` (`group_service.go` is not under
`src/`). Trim the outer whitespace of each filter name, load groups with the
trimmed filter (a load failure becomes a 400 "an error occurred while fetching
Groups"), then fill statistics on each loaded group; also returns the trace of
repository calls made. -/
def GroupService.GetGroups (gs : GroupService) (filter : datastore.GroupFilter) :
    Except ServiceError (List datastore.Group) × List RepoCall :=
  let f : datastore.GroupFilter := ⟨filter.names.map trimSpace⟩
  match gs.groupRepo.loadGroups f with
  | .error _ =>
    (.error ⟨statusBadRequest, "an error occurred while fetching Groups"⟩,
     [.loadGroups f.names])
  | .ok groups =>
    match gs.fillAllStatistics groups with
    | (r, t) => (r, .loadGroups f.names :: t)

namespace auth

/-- An API key role: role type (admin, ui_admin, api, super_user), the group
uids it scopes, and optionally the app uids it scopes. -/
structure Role where
  type : String
  groups : List String
  apps : List String
  deriving DecidableEq, Repr

end auth

namespace datastore

/-- The persisted `datastore.APIKey` record: uid, public mask id, name, key
type, role, salted hash material, optional expiry and timestamps. -/
structure APIKey where
  uid : String
  maskID : String
  name : String
  type : String
  role : auth.Role
  hash : String
  salt : String
  expiresAt : Option Int
  createdAt : Int
  updatedAt : Int
  deletedAt : Int
  documentStatus : DocumentStatus
  deriving DecidableEq, Repr

end datastore

namespace models

/-- The `models.APIKey` request body of CreateAPIKey: name, key type, role and
an optional expiry (`none` models Go's zero `time.Time`, i.e. absent). -/
structure APIKey where
  name : String
  type : String
  role : auth.Role
  expiresAt : Option Int
  deriving DecidableEq, Repr

end models

/-- API key repository oracle: the operation the embedded security-service
methods invoke. -/
structure APIKeyRepo where
  createAPIKey : datastore.APIKey → Except String Unit

/-- The security service with its two repositories (`NewSecurityService`). -/
structure SecurityService where
  groupRepo : GroupRepo
  apiKeyRepo : APIKeyRepo

/-- Environment for one key-issuing call: the generated uid, the 16-hex-char
public mask id, the random secret, the salt, the SHA256 function and the
current time (Go draws these from its crypto and clock). -/
structure KeyEnv where
  genUID : String
  maskID : String
  secret : String
  salt : String
  sha256 : String → String
  now : Int

/-- Modelled from the spec: §4.5 role validation (`security_service.go` is not
under `src/`): `role.type` must be one of super_user, admin, ui_admin, api. -/
def validateRole (r : auth.Role) : Bool :=
  ["super_user", "admin", "ui_admin", "api"].contains r.type

/-- Modelled from the spec: §4.5 expiry validation (`security_service.go` is
not under `src/`): `expires_at` must be absent or strictly in the future. -/
def expiryInvalid (expiresAt : Option Int) (now : Int) : Bool :=
  match expiresAt with
  | none => false
  | some t => decide (t ≤ now)

/-- Modelled from the spec: §4.5 `CreateAPIKey` (`security_service.go` is not
under `src/`). Validate expiry then role; fetch the groups named by
`role.groups` (a fetch failure becomes a 400 "invalid group"); require the
returned length to equal the requested length (else a 400 "cannot find
group"); build the key record with `hash = SHA256(secret ++ salt)` and the
`CO.<mask_id>.<secret>` plaintext; persist it, mapping a repository failure to
a 400 "failed to create api key". Also returns the ordered trace of
repository calls made. -/
def SecurityService.CreateAPIKey (ss : SecurityService) (env : KeyEnv)
    (newApiKey : models.APIKey) :
    Except ServiceError (datastore.APIKey × String) × List RepoCall :=
  if expiryInvalid newApiKey.expiresAt env.now then
    (.error ⟨statusBadRequest, "expiry date is invalid"⟩, [])
  else if ¬ validateRole newApiKey.role then
    (.error ⟨statusBadRequest, "invalid api key role"⟩, [])
  else
    match ss.groupRepo.fetchGroupsByIDs newApiKey.role.groups with
    | .error _ =>
      (.error ⟨statusBadRequest, "invalid group"⟩,
       [.fetchGroupsByIDs newApiKey.role.groups])
    | .ok groups =>
      if groups.length ≠ newApiKey.role.groups.length then
        (.error ⟨statusBadRequest, "cannot find group"⟩,
         [.fetchGroupsByIDs newApiKey.role.groups])
      else
        let key : datastore.APIKey :=
          { uid := env.genUID
            maskID := env.maskID
            name := newApiKey.name
            type := newApiKey.type
            role := newApiKey.role
            hash := env.sha256 (env.secret ++ env.salt)
            salt := env.salt
            expiresAt := newApiKey.expiresAt
            createdAt := env.now
            updatedAt := env.now
            deletedAt := 0
            documentStatus := .Active }
        match ss.apiKeyRepo.createAPIKey key with
        | .error _ =>
          (.error ⟨statusBadRequest, "failed to create api key"⟩,
           [.fetchGroupsByIDs newApiKey.role.groups, .createAPIKey key.uid])
        | .ok _ =>
          (.ok (key, "CO." ++ env.maskID ++ "." ++ env.secret),
           [.fetchGroupsByIDs newApiKey.role.groups, .createAPIKey key.uid])

/-- Modelled from the spec: §4.5 `CreateAppPortalAPIKey` (`security_service.go`
is not under `src/`). Reject when the app does not belong to the group; issue
a ui_admin key of type app_portal scoped to exactly that group and app with no
expiry; when a base url is given, return it with `?groupID=<g>&appId=<a>`
appended. Also returns the trace of repository calls made. -/
def SecurityService.CreateAppPortalAPIKey (ss : SecurityService) (env : KeyEnv)
    (group : datastore.Group) (app : convoy.Application) (baseUrl : Option String) :
    Except ServiceError (datastore.APIKey × String × Option String) × List RepoCall :=
  if app.GroupID ≠ group.uid then
    (.error ⟨statusBadRequest, "app does not belong to group"⟩, [])
  else
    let role : auth.Role := { type := "ui_admin", groups := [group.uid], apps := [app.UID] }
    let key : datastore.APIKey :=
      { uid := env.genUID
        maskID := env.maskID
        name := app.Title
        type := "app_portal"
        role := role
        hash := env.sha256 (env.secret ++ env.salt)
        salt := env.salt
        expiresAt := none
        createdAt := env.now
        updatedAt := env.now
        deletedAt := 0
        documentStatus := .Active }
    match ss.apiKeyRepo.createAPIKey key with
    | .error _ =>
      (.error ⟨statusBadRequest, "failed to create api key"⟩, [.createAPIKey key.uid])
    | .ok _ =>
      let newBaseUrl := baseUrl.map (fun u => u ++ "?groupID=" ++ group.uid ++ "&appId=" ++ app.UID)
      (.ok (key, "CO." ++ env.maskID ++ "." ++ env.secret, newBaseUrl), [.createAPIKey key.uid])

/-- Status of an event delivery. -/
inductive EventDeliveryStatus
  | Scheduled
  | Processing
  | Success
  | Failure
  | Retry
  | Discarded
  deriving DecidableEq, Repr

/-- The retry ledger of an event delivery: `num_trials`, `retry_limit`,
`interval_seconds`, `next_send_time`. -/
structure DeliveryMetadata where
  numTrials : Nat
  retryLimit : Nat
  intervalSeconds : Nat
  nextSendTime : Nat
  deriving DecidableEq, Repr

/-- An event delivery as the dispatch engine sees it: status plus metadata. -/
structure EventDelivery where
  status : EventDeliveryStatus
  metadata : DeliveryMetadata
  deriving DecidableEq, Repr

/-- Outcome of one worker interaction with a due delivery: the rate limiter
disallowed the send (with its retry_after), or the send was attempted and
classified successful (2xx in time) or failed. -/
inductive DispatchOutcome
  | rateLimited (retryAfter : Nat)
  | sendSuccess
  | sendFailure
  deriving DecidableEq, Repr

/-- Modelled from the spec: §4.7 retry backoff delay, exponential with a
15-minute cap. -/
def delay (n base : Nat) : Nat :=
  min (base * 2 ^ n) (15 * 60)

/-- A delivery is eligible for dispatch when its status is Scheduled or Retry
(`ListScheduledBefore` returns exactly those rows). -/
def EventDelivery.dispatchable (d : EventDelivery) : Bool :=
  d.status == .Scheduled || d.status == .Retry

/-- Modelled from the spec: §4.7 one dispatch-worker step on a claimed
delivery (the dispatch engine is not under `src/`). A non-dispatchable row is
left unchanged. A rate-limited attempt reschedules to `now + retry_after`
without touching `num_trials`. A real attempt counts one trial; on success the
delivery terminates in Success, on failure it retries with backoff while the
pre-attempt `num_trials` is below `retry_limit` and otherwise terminates in
Failure. -/
def dispatchStep (now : Nat) (o : DispatchOutcome) (d : EventDelivery) : EventDelivery :=
  if d.dispatchable then
    match o with
    | .rateLimited retryAfter =>
      { d with status := .Retry
               metadata := { d.metadata with nextSendTime := now + retryAfter } }
    | .sendSuccess =>
      { d with status := .Success
               metadata := { d.metadata with numTrials := d.metadata.numTrials + 1 } }
    | .sendFailure =>
      if d.metadata.numTrials < d.metadata.retryLimit then
        { d with status := .Retry
                 metadata := { d.metadata with
                               numTrials := d.metadata.numTrials + 1
                               nextSendTime := now + delay d.metadata.numTrials d.metadata.intervalSeconds } }
      else
        { d with status := .Failure
                 metadata := { d.metadata with numTrials := d.metadata.numTrials + 1 } }
  else d

/-- Modelled from the spec: §4.6 step 4, the delivery materialized at ingest:
Scheduled, zero trials, the group strategy's retry limit and interval, next
send time now. -/
def newEventDelivery (retryLimit intervalSeconds now : Nat) : EventDelivery :=
  { status := .Scheduled, metadata := ⟨0, retryLimit, intervalSeconds, now⟩ }

/-- An execution of the dispatch engine on one delivery: the fold of worker
steps, each with its wall-clock time and outcome. -/
def dispatchRun (steps : List (Nat × DispatchOutcome)) (d : EventDelivery) : EventDelivery :=
  steps.foldl (fun acc s => dispatchStep s.1 s.2 acc) d

/-- The delivery invariant: `num_trials ≤ retry_limit + 1`, and a delivery
still eligible for dispatch has `num_trials ≤ retry_limit`. -/
def DeliveryInv (d : EventDelivery) : Prop :=
  d.metadata.numTrials ≤ d.metadata.retryLimit + 1 ∧
  (d.dispatchable = true → d.metadata.numTrials ≤ d.metadata.retryLimit)

/-- A blank persisted group with the given uid (witness fixture). -/
def blankGroup (uid : String) : datastore.Group :=
  { uid := uid
    name := ""
    logoURL := ""
    rateLimit := 0
    rateLimitDuration := ""
    config := none
    statistics := none
    createdAt := 0
    updatedAt := 0
    deletedAt := 0
    documentStatus := .Active }

/-- Group repository oracle on which every operation succeeds. -/
def okGroupRepo : GroupRepo :=
  { createGroup := fun _ => .ok ()
    loadGroups := fun f => .ok (f.names.map blankGroup)
    deleteGroup := fun _ => .ok ()
    fetchGroupsByIDs := fun ids => .ok (ids.map blankGroup) }

/-- Application repository oracle on which every operation succeeds. -/
def okAppRepo : AppRepo :=
  { countGroupApplications := fun _ => .ok 1
    deleteGroupApps := fun _ => .ok () }

/-- Event repository oracle on which every operation succeeds. -/
def okEventRepo : EventRepo :=
  { countGroupMessages := fun _ => .ok 1
    deleteGroupEvents := fun _ => .ok () }

/-- Group service over the all-succeeding oracles. -/
def okGroupService : GroupService :=
  ⟨okGroupRepo, okAppRepo, okEventRepo⟩

/-- Group service whose group-delete operation fails. -/
def failDeleteGroupService : GroupService :=
  { okGroupService with groupRepo := { okGroupRepo with deleteGroup := fun _ => .error "failed" } }

/-- Group service whose app-delete operation fails. -/
def failDeleteAppsGroupService : GroupService :=
  { okGroupService with appRepo := { okAppRepo with deleteGroupApps := fun _ => .error "failed" } }

/-- Group service whose event-delete operation fails. -/
def failDeleteEventsGroupService : GroupService :=
  { okGroupService with eventRepo := { okEventRepo with deleteGroupEvents := fun _ => .error "failed" } }

/-- Group service whose application count fails. -/
def failCountAppsGroupService : GroupService :=
  { okGroupService with appRepo := { okAppRepo with countGroupApplications := fun _ => .error "failed" } }

/-- Group service whose message count fails. -/
def failCountMessagesGroupService : GroupService :=
  { okGroupService with eventRepo := { okEventRepo with countGroupMessages := fun _ => .error "failed" } }

/-- Group service whose load operation fails. -/
def failLoadGroupService : GroupService :=
  { okGroupService with groupRepo := { okGroupRepo with loadGroups := fun _ => .error "failed" } }

/-- API key repository oracle on which creation succeeds. -/
def okAPIKeyRepo : APIKeyRepo :=
  ⟨fun _ => .ok ()⟩

/-- Security service over the all-succeeding oracles. -/
def okSecurityService : SecurityService :=
  ⟨okGroupRepo, okAPIKeyRepo⟩

/-- Security service whose group fetch returns the empty list. -/
def emptyFetchSecurityService : SecurityService :=
  ⟨{ okGroupRepo with fetchGroupsByIDs := fun _ => .ok [] }, okAPIKeyRepo⟩

/-- Security service whose group fetch fails. -/
def failFetchSecurityService : SecurityService :=
  ⟨{ okGroupRepo with fetchGroupsByIDs := fun _ => .error "failed" }, okAPIKeyRepo⟩

/-- A concrete key-issuing environment (witness fixture). -/
def sampleKeyEnv : KeyEnv :=
  ⟨"key_uid_1", "abcdef0123456789", "secretsecret", "salty", fun s => "sha-" ++ s, 1000⟩

/-- The group configuration used by the service tests: default strategy with
interval 20 and retry limit 4, SHA256 signature in `X-Convoy-Signature`. -/
def sampleConfig : datastore.GroupConfig :=
  { strategy := { type := "default", default := ⟨20, 4⟩ }
    signature := ⟨"X-Convoy-Signature", "SHA256"⟩
    disableEndpoint := true
    replayAttacks := true }

/-- A CreateGroup input that passes validation and omits the rate limit
settings (witness fixture, after the `should_create_group_with_rate_limit_defaults`
test case). -/
def sampleNewGroup : models.Group :=
  { name := "test_group_1"
    logoURL := "https://google.com"
    rateLimit := 0
    rateLimitDuration := ""
    config := sampleConfig }

/-- A CreateAPIKey input with an admin role over one group and a future expiry
(witness fixture). -/
def sampleAPIKeyInput : models.APIKey :=
  { name := "test_api_key"
    type := "api"
    role := { type := "admin", groups := ["G1"], apps := [] }
    expiresAt := some 5000 }

/-- A CreateAPIKey input whose expiry lies in the past of every sampled clock
(witness fixture). -/
def pastExpiryAPIKeyInput : models.APIKey :=
  { sampleAPIKeyInput with expiresAt := some 10 }

/-- C10: for every Group `g`, `g.IsDeleted()` is true iff `g.DeletedAt > 0`,
the `DocumentStatus` field plays no role in the deletion test, and
`g.IsOwner(a)` is true iff `g.UID` equals `a.GroupID`. -/
theorem c10_group_isDeleted_isOwner :
    ∀ (g : convoy.Group) (a : convoy.Application) (s : DocumentStatus),
      (g.IsDeleted = true ↔ g.DeletedAt > 0) ∧
      convoy.Group.IsDeleted { g with DocumentStatus := s } = g.IsDeleted ∧
      (g.IsOwner a = true ↔ g.UID = a.GroupID) := by
  intro g a s
  refine ⟨?_, rfl, ?_⟩
  · simp [convoy.Group.IsDeleted]
  · simp [convoy.Group.IsOwner]

/-- C9 counterexample: the `GroupRepository` interface declared in `group.go`
exposes neither a delete operation nor a fetch-by-ids operation, and its load
operation takes no filter — contradicting the claimed six-operation contract. -/
theorem c9_groupRepository_counterexample :
    convoy.RepoOp.delete ∉ convoy.groupRepositoryOps ∧
    convoy.RepoOp.fetchByIDs ∉ convoy.groupRepositoryOps ∧
    convoy.RepoOp.load true ∉ convoy.groupRepositoryOps := by
  decide

/-- C9 (amended): the `GroupRepository` contract declared in `group.go` exposes
a load operation that takes no filter, a fetch-by-id operation, a create
operation and an update operation, and nothing else: in particular no
fetch-by-ids and no delete operation. -/
theorem c9_groupRepository_ops :
    convoy.RepoOp.load false ∈ convoy.groupRepositoryOps ∧
    convoy.RepoOp.fetchByID ∈ convoy.groupRepositoryOps ∧
    convoy.RepoOp.create ∈ convoy.groupRepositoryOps ∧
    convoy.RepoOp.update ∈ convoy.groupRepositoryOps ∧
    convoy.RepoOp.delete ∉ convoy.groupRepositoryOps ∧
    convoy.RepoOp.fetchByIDs ∉ convoy.groupRepositoryOps ∧
    convoy.groupRepositoryOps.length = 4 := by
  decide

/-- C1: every CreateGroup input that passes validation gets, on a successful
persist, a group whose rate limit settings default to 5000 and "1m" when the
input omitted them and are kept verbatim when it supplied them, with a fresh
non-empty uid, Active document status, non-empty created_at and updated_at
and an empty deleted_at. -/
theorem c1_createGroup_defaults :
    ∀ (gs : GroupService) (env : GroupEnv) (g : models.Group),
      validateGroup g = none →
      (∀ x, gs.groupRepo.createGroup x = .ok ()) →
      env.genUID ≠ "" → env.now ≠ 0 →
      ∃ res, gs.CreateGroup env g = .ok res ∧
        res.uid = env.genUID ∧ res.uid ≠ "" ∧
        res.documentStatus = .Active ∧
        res.createdAt ≠ 0 ∧ res.updatedAt ≠ 0 ∧ res.deletedAt = 0 ∧
        (g.rateLimit = 0 → res.rateLimit = 5000) ∧
        (g.rateLimitDuration = "" → res.rateLimitDuration = "1m") ∧
        (g.rateLimit ≠ 0 → res.rateLimit = g.rateLimit) ∧
        (g.rateLimitDuration ≠ "" → res.rateLimitDuration = g.rateLimitDuration) := by
  intro gs env g hval hrepo huid hnow
  simp only [GroupService.CreateGroup, hval, hrepo]
  refine ⟨_, rfl, rfl, huid, rfl, hnow, hnow, rfl, ?_, ?_, ?_, ?_⟩
  · intro h0
    simp [h0]
  · intro h0
    simp [h0]
  · intro h0
    simp [h0]
  · intro h0
    simp [h0]

/-- C1 witness: on the all-succeeding repository, the defaults-omitting test
input yields a group with rate_limit 5000, duration "1m", the generated uid,
Active status, set timestamps and empty deleted_at. -/
theorem c1_createGroup_defaults_witness :
    ∃ res, okGroupService.CreateGroup ⟨"01AB23F6", 1⟩ sampleNewGroup = .ok res ∧
      res.uid = "01AB23F6" ∧ res.uid ≠ "" ∧
      res.documentStatus = .Active ∧
      res.createdAt ≠ 0 ∧ res.updatedAt ≠ 0 ∧ res.deletedAt = 0 ∧
      (sampleNewGroup.rateLimit = 0 → res.rateLimit = 5000) ∧
      (sampleNewGroup.rateLimitDuration = "" → res.rateLimitDuration = "1m") ∧
      (sampleNewGroup.rateLimit ≠ 0 → res.rateLimit = sampleNewGroup.rateLimit) ∧
      (sampleNewGroup.rateLimitDuration ≠ "" →
        res.rateLimitDuration = sampleNewGroup.rateLimitDuration) :=
  c1_createGroup_defaults okGroupService ⟨"01AB23F6", 1⟩ sampleNewGroup rfl
    (fun _ => rfl) (by decide) (by decide)

/-- C2: DeleteGroup deletes the group, then its apps, then its events, in that
order; each failing step yields its distinct 400 error and the repository
calls after the failing step are not made, while the completed ones stand. -/
theorem c2_deleteGroup_cascade :
    ∀ (gs : GroupService) (id : String),
      (gs.groupRepo.deleteGroup id = .ok () →
       gs.appRepo.deleteGroupApps id = .ok () →
       gs.eventRepo.deleteGroupEvents id = .ok () →
       gs.DeleteGroup id =
         (.ok (), [.deleteGroup id, .deleteGroupApps id, .deleteGroupEvents id])) ∧
      (∀ e, gs.groupRepo.deleteGroup id = .error e →
       gs.DeleteGroup id =
         (.error ⟨statusBadRequest, "failed to delete group"⟩, [.deleteGroup id])) ∧
      (∀ e, gs.groupRepo.deleteGroup id = .ok () →
       gs.appRepo.deleteGroupApps id = .error e →
       gs.DeleteGroup id =
         (.error ⟨statusBadRequest, "failed to delete group apps"⟩,
          [.deleteGroup id, .deleteGroupApps id])) ∧
      (∀ e, gs.groupRepo.deleteGroup id = .ok () →
       gs.appRepo.deleteGroupApps id = .ok () →
       gs.eventRepo.deleteGroupEvents id = .error e →
       gs.DeleteGroup id =
         (.error ⟨statusBadRequest, "failed to delete group events"⟩,
          [.deleteGroup id, .deleteGroupApps id, .deleteGroupEvents id])) := by
  intro gs id
  refine ⟨?_, ?_, ?_, ?_⟩
  · intro h1 h2 h3
    simp [GroupService.DeleteGroup, h1, h2, h3]
  · intro e h1
    simp [GroupService.DeleteGroup, h1]
  · intro e h1 h2
    simp [GroupService.DeleteGroup, h1, h2]
  · intro e h1 h2 h3
    simp [GroupService.DeleteGroup, h1, h2, h3]

/-- C2 witness: the four cascade outcomes at id "12345" on oracles failing at
no step, the first, the second, and the third step respectively. -/
theorem c2_deleteGroup_cascade_witness :
    okGroupService.DeleteGroup "12345" =
      (.ok (), [.deleteGroup "12345", .deleteGroupApps "12345", .deleteGroupEvents "12345"]) ∧
    failDeleteGroupService.DeleteGroup "12345" =
      (.error ⟨statusBadRequest, "failed to delete group"⟩, [.deleteGroup "12345"]) ∧
    failDeleteAppsGroupService.DeleteGroup "12345" =
      (.error ⟨statusBadRequest, "failed to delete group apps"⟩,
       [.deleteGroup "12345", .deleteGroupApps "12345"]) ∧
    failDeleteEventsGroupService.DeleteGroup "12345" =
      (.error ⟨statusBadRequest, "failed to delete group events"⟩,
       [.deleteGroup "12345", .deleteGroupApps "12345", .deleteGroupEvents "12345"]) :=
  ⟨(c2_deleteGroup_cascade okGroupService "12345").1 rfl rfl rfl,
   (c2_deleteGroup_cascade failDeleteGroupService "12345").2.1 "failed" rfl,
   (c2_deleteGroup_cascade failDeleteAppsGroupService "12345").2.2.1 "failed" rfl rfl,
   (c2_deleteGroup_cascade failDeleteEventsGroupService "12345").2.2.2 "failed" rfl rfl rfl⟩

/-- C7: FillStatistics sets the group's statistics to the message count and
app count of its uid; if either count fails it fails with "failed to count
group statistics"; and statistics are only ever set when both counts
succeeded. -/
theorem c7_fillGroupStatistics_counts :
    ∀ (gs : GroupService) (g : datastore.Group),
      (∀ apps msgs,
        gs.appRepo.countGroupApplications g.uid = .ok apps →
        gs.eventRepo.countGroupMessages g.uid = .ok msgs →
        (gs.FillGroupStatistics g).1 =
          .ok { g with statistics := some { messagesSent := msgs, totalApps := apps } }) ∧
      (∀ e, gs.appRepo.countGroupApplications g.uid = .error e →
        (gs.FillGroupStatistics g).1 =
          .error ⟨statusBadRequest, "failed to count group statistics"⟩) ∧
      (∀ apps e,
        gs.appRepo.countGroupApplications g.uid = .ok apps →
        gs.eventRepo.countGroupMessages g.uid = .error e →
        (gs.FillGroupStatistics g).1 =
          .error ⟨statusBadRequest, "failed to count group statistics"⟩) ∧
      (∀ g', (gs.FillGroupStatistics g).1 = .ok g' →
        ∃ apps msgs,
          gs.appRepo.countGroupApplications g.uid = .ok apps ∧
          gs.eventRepo.countGroupMessages g.uid = .ok msgs ∧
          g'.statistics = some { messagesSent := msgs, totalApps := apps }) := by
  intro gs g
  refine ⟨?_, ?_, ?_, ?_⟩
  · intro apps msgs h1 h2
    simp [GroupService.FillGroupStatistics, h1, h2]
  · intro e h1
    simp [GroupService.FillGroupStatistics, h1]
  · intro apps e h1 h2
    simp [GroupService.FillGroupStatistics, h1, h2]
  · intro g' hok
    rcases h1 : gs.appRepo.countGroupApplications g.uid with e | apps
    · simp [GroupService.FillGroupStatistics, h1] at hok
    · rcases h2 : gs.eventRepo.countGroupMessages g.uid with e | msgs
      · simp [GroupService.FillGroupStatistics, h1, h2] at hok
      · simp [GroupService.FillGroupStatistics, h1, h2] at hok
        exact ⟨apps, msgs, rfl, rfl, by simp [← hok]⟩

/-- C7 witness: on the uid "1234" the all-succeeding oracles fill statistics
with both counts, and an oracle failing either count yields the
"failed to count group statistics" error. -/
theorem c7_fillGroupStatistics_counts_witness :
    (okGroupService.FillGroupStatistics (blankGroup "1234")).1 =
      .ok { blankGroup "1234" with
            statistics := some { messagesSent := 1, totalApps := 1 } } ∧
    (failCountAppsGroupService.FillGroupStatistics (blankGroup "1234")).1 =
      .error ⟨statusBadRequest, "failed to count group statistics"⟩ ∧
    (failCountMessagesGroupService.FillGroupStatistics (blankGroup "1234")).1 =
      .error ⟨statusBadRequest, "failed to count group statistics"⟩ :=
  ⟨(c7_fillGroupStatistics_counts okGroupService (blankGroup "1234")).1 1 1 rfl rfl,
   (c7_fillGroupStatistics_counts failCountAppsGroupService (blankGroup "1234")).2.1
     "failed" rfl,
   (c7_fillGroupStatistics_counts failCountMessagesGroupService (blankGroup "1234")).2.2.1
     1 "failed" rfl rfl⟩

/-- Trimming removes only outer whitespace: the original string is whitespace,
then the trimmed string verbatim (hence with its letter case preserved), then
whitespace. -/
theorem trimSpace_outer_whitespace (s : String) :
    ∃ l r, s.data = l ++ (trimSpace s).data ++ r ∧
      (∀ c ∈ l, c.isWhitespace) ∧ (∀ c ∈ r, c.isWhitespace) := by
  have e0 : s.data =
      s.data.takeWhile Char.isWhitespace ++ s.data.dropWhile Char.isWhitespace :=
    (List.takeWhile_append_dropWhile _ _).symm
  set t := s.data.dropWhile Char.isWhitespace with ht
  have e1 : t.reverse =
      t.reverse.takeWhile Char.isWhitespace ++ t.reverse.dropWhile Char.isWhitespace :=
    (List.takeWhile_append_dropWhile _ _).symm
  have e2 : t = (t.reverse.dropWhile Char.isWhitespace).reverse ++
      (t.reverse.takeWhile Char.isWhitespace).reverse := by
    rw [← List.reverse_append, ← e1, List.reverse_reverse]
  refine ⟨s.data.takeWhile Char.isWhitespace,
          (t.reverse.takeWhile Char.isWhitespace).reverse, ?_, ?_, ?_⟩
  · conv_lhs => rw [e0, e2]
    rw [List.append_assoc]
    rfl
  · intro c hc
    exact List.mem_takeWhile_imp hc
  · intro c hc
    rw [List.mem_reverse] at hc
    exact List.mem_takeWhile_imp hc

/-- When every count succeeds, the statistics-filling loop succeeds and every
group it returns carries a statistics record. -/
theorem fillAllStatistics_ok (gs : GroupService)
    (hca : ∀ u, ∃ n, gs.appRepo.countGroupApplications u = .ok n)
    (hcm : ∀ u, ∃ n, gs.eventRepo.countGroupMessages u = .ok n) :
    ∀ l, ∃ res, (gs.fillAllStatistics l).1 = .ok res ∧
      ∀ g ∈ res, g.statistics.isSome := by
  intro l
  induction l with
  | nil => exact ⟨[], rfl, by simp⟩
  | cons g rest ih =>
    obtain ⟨a, ha⟩ := hca g.uid
    obtain ⟨m, hm⟩ := hcm g.uid
    obtain ⟨res, hres, hall⟩ := ih
    have hf : gs.FillGroupStatistics g =
        (.ok { g with statistics := some ⟨m, a⟩ },
         [.countGroupApplications g.uid, .countGroupMessages g.uid]) := by
      simp [GroupService.FillGroupStatistics, ha, hm]
    rcases hfr : gs.fillAllStatistics rest with ⟨r, t'⟩
    rw [hfr] at hres
    simp only at hres
    refine ⟨{ g with statistics := some ⟨m, a⟩ } :: res, ?_, ?_⟩
    · simp only [GroupService.fillAllStatistics, hf, hfr, hres]
    · intro x hx
      rw [List.mem_cons] at hx
      rcases hx with rfl | hx
      · simp
      · exact hall x hx

/-- C6: GetGroups passes the load operation a filter whose names are the
input's names trimmed of outer whitespace only (interior characters, hence
case, preserved); a load failure fails the call with "an error occurred while
fetching Groups"; and on a successful load with succeeding counts, every group
in the result carries a statistics record. -/
theorem c6_getGroups_trim_fill :
    ∀ (gs : GroupService) (f : datastore.GroupFilter),
      (gs.GetGroups f).2.head? = some (.loadGroups (f.names.map trimSpace)) ∧
      (∀ s : String, ∃ l r, s.data = l ++ (trimSpace s).data ++ r ∧
        (∀ c ∈ l, c.isWhitespace) ∧ (∀ c ∈ r, c.isWhitespace)) ∧
      (∀ e, gs.groupRepo.loadGroups ⟨f.names.map trimSpace⟩ = .error e →
        (gs.GetGroups f).1 =
          .error ⟨statusBadRequest, "an error occurred while fetching Groups"⟩) ∧
      (∀ groups,
        gs.groupRepo.loadGroups ⟨f.names.map trimSpace⟩ = .ok groups →
        (∀ u, ∃ n, gs.appRepo.countGroupApplications u = .ok n) →
        (∀ u, ∃ n, gs.eventRepo.countGroupMessages u = .ok n) →
        ∃ res, (gs.GetGroups f).1 = .ok res ∧ ∀ g ∈ res, g.statistics.isSome) := by
  intro gs f
  refine ⟨?_, fun s => trimSpace_outer_whitespace s, ?_, ?_⟩
  · rcases hl : gs.groupRepo.loadGroups ⟨f.names.map trimSpace⟩ with e | groups
    · simp [GroupService.GetGroups, hl]
    · rcases hfa : gs.fillAllStatistics groups with ⟨r, t⟩
      simp [GroupService.GetGroups, hl, hfa]
  · intro e hl
    simp [GroupService.GetGroups, hl]
  · intro groups hl hca hcm
    obtain ⟨res, hres, hall⟩ := fillAllStatistics_ok gs hca hcm groups
    rcases hfa : gs.fillAllStatistics groups with ⟨r, t⟩
    rw [hfa] at hres
    simp only at hres
    refine ⟨res, ?_, hall⟩
    simp [GroupService.GetGroups, hl, hfa, hres]

/-- C6 witness: the whitespace-and-case test filter is passed to load trimmed
with its case intact, a failing load yields the fixed error, and on the
all-succeeding oracles every returned group carries statistics. -/
theorem c6_getGroups_trim_fill_witness :
    (okGroupService.GetGroups ⟨["  deFault_Group"]⟩).2.head? =
      some (.loadGroups ["deFault_Group"]) ∧
    (failLoadGroupService.GetGroups ⟨[" default_group "]⟩).1 =
      .error ⟨statusBadRequest, "an error occurred while fetching Groups"⟩ ∧
    ∃ res, (okGroupService.GetGroups ⟨["  deFault_Group"]⟩).1 = .ok res ∧
      ∀ g ∈ res, g.statistics.isSome := by
  refine ⟨?_, ?_, ?_⟩
  · exact (c6_getGroups_trim_fill okGroupService ⟨["  deFault_Group"]⟩).1
  · exact (c6_getGroups_trim_fill failLoadGroupService ⟨[" default_group "]⟩).2.2.1
      "failed" rfl
  · exact (c6_getGroups_trim_fill okGroupService ⟨["  deFault_Group"]⟩).2.2.2
      ((["  deFault_Group"].map trimSpace).map blankGroup) rfl
      (fun _ => ⟨1, rfl⟩) (fun _ => ⟨1, rfl⟩)

/-- C3: with a valid expiry and role, CreateAPIKey fetches the groups named by
`role.groups`; when the returned list's length differs from the requested one
it fails with a 400 "cannot find group", and when the fetch itself errors it
fails with a 400 "invalid group"; in both cases the key repository is never
called, so no API key is created. -/
theorem c3_createAPIKey_group_check :
    ∀ (ss : SecurityService) (env : KeyEnv) (k : models.APIKey),
      expiryInvalid k.expiresAt env.now = false →
      validateRole k.role = true →
      (∀ groups, ss.groupRepo.fetchGroupsByIDs k.role.groups = .ok groups →
        groups.length ≠ k.role.groups.length →
        ss.CreateAPIKey env k =
          (.error ⟨statusBadRequest, "cannot find group"⟩,
           [.fetchGroupsByIDs k.role.groups])) ∧
      (∀ e, ss.groupRepo.fetchGroupsByIDs k.role.groups = .error e →
        ss.CreateAPIKey env k =
          (.error ⟨statusBadRequest, "invalid group"⟩,
           [.fetchGroupsByIDs k.role.groups])) := by
  intro ss env k hexp hrole
  constructor
  · intro groups hfetch hlen
    simp [SecurityService.CreateAPIKey, hexp, hrole, hfetch, hlen]
  · intro e hfetch
    simp [SecurityService.CreateAPIKey, hexp, hrole, hfetch]

/-- C3 witness: with the one-element group list ["G1"], a fetch returning the
empty list yields the 400 "cannot find group" and a failing fetch yields the
400 "invalid group", in both cases with the group fetch as the only repository
call made. -/
theorem c3_createAPIKey_group_check_witness :
    emptyFetchSecurityService.CreateAPIKey sampleKeyEnv sampleAPIKeyInput =
      (.error ⟨statusBadRequest, "cannot find group"⟩, [.fetchGroupsByIDs ["G1"]]) ∧
    failFetchSecurityService.CreateAPIKey sampleKeyEnv sampleAPIKeyInput =
      (.error ⟨statusBadRequest, "invalid group"⟩, [.fetchGroupsByIDs ["G1"]]) :=
  ⟨(c3_createAPIKey_group_check emptyFetchSecurityService sampleKeyEnv
      sampleAPIKeyInput rfl rfl).1 [] rfl (by decide),
   (c3_createAPIKey_group_check failFetchSecurityService sampleKeyEnv
      sampleAPIKeyInput rfl rfl).2 "failed" rfl⟩

/-- C8: an input whose expiry lies in the past fails with a 400
"expiry date is invalid" before any repository call is made (empty call
trace); an input with a strictly future expiry that passes the remaining
checks is stored with exactly that expiry. -/
theorem c8_createAPIKey_expiry :
    ∀ (ss : SecurityService) (env : KeyEnv) (k : models.APIKey),
      (∀ t, k.expiresAt = some t → t < env.now →
        ss.CreateAPIKey env k =
          (.error ⟨statusBadRequest, "expiry date is invalid"⟩, [])) ∧
      (∀ t groups, k.expiresAt = some t → env.now < t →
        validateRole k.role = true →
        ss.groupRepo.fetchGroupsByIDs k.role.groups = .ok groups →
        groups.length = k.role.groups.length →
        (∀ x, ss.apiKeyRepo.createAPIKey x = .ok ()) →
        ∃ key plain, (ss.CreateAPIKey env k).1 = .ok (key, plain) ∧
          key.expiresAt = some t) := by
  intro ss env k
  constructor
  · intro t hk ht
    have hinv : expiryInvalid k.expiresAt env.now = true := by
      simp only [expiryInvalid, hk, decide_eq_true_eq]
      omega
    simp [SecurityService.CreateAPIKey, hinv]
  · intro t groups hk ht hrole hfetch hlen hcreate
    have hinv : expiryInvalid k.expiresAt env.now = false := by
      simp only [expiryInvalid, hk, decide_eq_false_iff_not]
      omega
    have hres : (ss.CreateAPIKey env k).1 =
        .ok ({ uid := env.genUID, maskID := env.maskID, name := k.name,
               type := k.type, role := k.role,
               hash := env.sha256 (env.secret ++ env.salt), salt := env.salt,
               expiresAt := k.expiresAt, createdAt := env.now, updatedAt := env.now,
               deletedAt := 0, documentStatus := .Active },
             "CO." ++ env.maskID ++ "." ++ env.secret) := by
      simp [SecurityService.CreateAPIKey, hinv, hrole, hfetch, hlen, hcreate]
    exact ⟨_, _, hres, hk⟩

/-- C8 witness: at clock 1000 an expiry of 10 is rejected with
"expiry date is invalid" and an empty call trace, while an expiry of 5000 is
accepted and stored on the created key. -/
theorem c8_createAPIKey_expiry_witness :
    okSecurityService.CreateAPIKey sampleKeyEnv pastExpiryAPIKeyInput =
      (.error ⟨statusBadRequest, "expiry date is invalid"⟩, []) ∧
    ∃ key plain,
      (okSecurityService.CreateAPIKey sampleKeyEnv sampleAPIKeyInput).1 =
        .ok (key, plain) ∧ key.expiresAt = some 5000 :=
  ⟨(c8_createAPIKey_expiry okSecurityService sampleKeyEnv pastExpiryAPIKeyInput).1
     10 rfl (by decide),
   (c8_createAPIKey_expiry okSecurityService sampleKeyEnv sampleAPIKeyInput).2
     5000 (["G1"].map blankGroup) rfl (by decide) rfl rfl rfl (fun _ => rfl)⟩

/-- C4: CreateAppPortalAPIKey rejects with a 400 "app does not belong to
group" whenever the app's group_id differs from the group's uid; on success it
issues an app_portal key whose ui_admin role is scoped to exactly that group
and app, with no expiry, and a supplied base url is returned with
`?groupID=<group.uid>&appId=<app.uid>` appended. -/
theorem c4_createAppPortalAPIKey_scope :
    ∀ (ss : SecurityService) (env : KeyEnv) (group : datastore.Group)
      (app : convoy.Application) (baseUrl : Option String),
      (app.GroupID ≠ group.uid →
        ss.CreateAppPortalAPIKey env group app baseUrl =
          (.error ⟨statusBadRequest, "app does not belong to group"⟩, [])) ∧
      (app.GroupID = group.uid →
        (∀ x, ss.apiKeyRepo.createAPIKey x = .ok ()) →
        ∃ key plain newBase,
          (ss.CreateAppPortalAPIKey env group app baseUrl).1 =
            .ok (key, plain, newBase) ∧
          key.type = "app_portal" ∧
          key.role.type = "ui_admin" ∧
          key.role.groups = [group.uid] ∧
          key.role.apps = [app.UID] ∧
          key.expiresAt = none ∧
          (∀ u, baseUrl = some u →
            newBase = some (u ++ "?groupID=" ++ group.uid ++ "&appId=" ++ app.UID))) := by
  intro ss env group app baseUrl
  constructor
  · intro hne
    simp [SecurityService.CreateAppPortalAPIKey, hne]
  · intro heq hcreate
    have hres : ss.CreateAppPortalAPIKey env group app baseUrl =
        (.ok ({ uid := env.genUID, maskID := env.maskID, name := app.Title,
                type := "app_portal",
                role := { type := "ui_admin", groups := [group.uid], apps := [app.UID] },
                hash := env.sha256 (env.secret ++ env.salt), salt := env.salt,
                expiresAt := none, createdAt := env.now, updatedAt := env.now,
                deletedAt := 0, documentStatus := .Active },
              "CO." ++ env.maskID ++ "." ++ env.secret,
              baseUrl.map (fun u => u ++ "?groupID=" ++ group.uid ++ "&appId=" ++ app.UID)),
         [.createAPIKey env.genUID]) := by
      simp [SecurityService.CreateAppPortalAPIKey, heq, hcreate]
    refine ⟨_, _,
      baseUrl.map (fun u => u ++ "?groupID=" ++ group.uid ++ "&appId=" ++ app.UID),
      by rw [hres], rfl, rfl, rfl, rfl, rfl, ?_⟩
    intro u hu
    rw [hu]
    rfl

/-- C4 witness: the test app ("abc" in group "1234") gets an app_portal
ui_admin key scoped to exactly that group and app with no expiry and the base
url suffixed, while an app of group "12345" is rejected against group
"1234". -/
theorem c4_createAppPortalAPIKey_scope_witness :
    (∃ key plain newBase,
      (okSecurityService.CreateAppPortalAPIKey sampleKeyEnv (blankGroup "1234")
        ⟨"abc", "1234", "test_app"⟩ (some "https://getconvoy.io")).1 =
        .ok (key, plain, newBase) ∧
      key.type = "app_portal" ∧
      key.role.type = "ui_admin" ∧
      key.role.groups = ["1234"] ∧
      key.role.apps = ["abc"] ∧
      key.expiresAt = none ∧
      (∀ u, (some "https://getconvoy.io" : Option String) = some u →
        newBase = some (u ++ "?groupID=" ++ "1234" ++ "&appId=" ++ "abc"))) ∧
    okSecurityService.CreateAppPortalAPIKey sampleKeyEnv (blankGroup "1234")
      ⟨"x", "12345", "y"⟩ none =
      (.error ⟨statusBadRequest, "app does not belong to group"⟩, []) :=
  ⟨(c4_createAppPortalAPIKey_scope okSecurityService sampleKeyEnv (blankGroup "1234")
      ⟨"abc", "1234", "test_app"⟩ (some "https://getconvoy.io")).2 rfl (fun _ => rfl),
   (c4_createAppPortalAPIKey_scope okSecurityService sampleKeyEnv (blankGroup "1234")
      ⟨"x", "12345", "y"⟩ none).1 (by decide)⟩

/-- One worker step never decreases the trial counter. -/
theorem dispatchStep_numTrials_mono (now : Nat) (o : DispatchOutcome) (d : EventDelivery) :
    d.metadata.numTrials ≤ (dispatchStep now o d).metadata.numTrials := by
  unfold dispatchStep
  by_cases h : d.dispatchable = true
  · rw [if_pos h]
    cases o with
    | rateLimited ra => exact le_refl _
    | sendSuccess => exact Nat.le_succ _
    | sendFailure =>
      by_cases hf : d.metadata.numTrials < d.metadata.retryLimit
      · rw [if_pos hf]
        exact Nat.le_succ _
      · rw [if_neg hf]
        exact Nat.le_succ _
  · rw [if_neg h]

/-- One worker step leaves the retry limit unchanged. -/
theorem dispatchStep_retryLimit_const (now : Nat) (o : DispatchOutcome) (d : EventDelivery) :
    (dispatchStep now o d).metadata.retryLimit = d.metadata.retryLimit := by
  unfold dispatchStep
  by_cases h : d.dispatchable = true
  · rw [if_pos h]
    cases o with
    | rateLimited ra => rfl
    | sendSuccess => rfl
    | sendFailure =>
      by_cases hf : d.metadata.numTrials < d.metadata.retryLimit
      · rw [if_pos hf]
      · rw [if_neg hf]
  · rw [if_neg h]

/-- One worker step preserves the delivery invariant. -/
theorem dispatchStep_inv (now : Nat) (o : DispatchOutcome) (d : EventDelivery) :
    DeliveryInv d → DeliveryInv (dispatchStep now o d) := by
  intro ⟨h1, h2⟩
  unfold dispatchStep
  by_cases h : d.dispatchable = true
  · have hn : d.metadata.numTrials ≤ d.metadata.retryLimit := h2 h
    rw [if_pos h]
    cases o with
    | rateLimited ra =>
      exact ⟨le_trans hn (Nat.le_succ _), fun _ => hn⟩
    | sendSuccess =>
      refine ⟨Nat.succ_le_succ hn, fun hc => ?_⟩
      simp [EventDelivery.dispatchable] at hc
    | sendFailure =>
      by_cases hf : d.metadata.numTrials < d.metadata.retryLimit
      · rw [if_pos hf]
        exact ⟨Nat.succ_le_succ hn, fun _ => hf⟩
      · rw [if_neg hf]
        refine ⟨Nat.succ_le_succ hn, fun hc => ?_⟩
        simp [EventDelivery.dispatchable] at hc
  · rw [if_neg h]
    exact ⟨h1, h2⟩

/-- Along any run, the invariant is preserved, the trial counter never
decreases, and the retry limit never changes. -/
theorem dispatchRun_inv_mono (steps : List (Nat × DispatchOutcome)) :
    ∀ d : EventDelivery, DeliveryInv d →
      DeliveryInv (dispatchRun steps d) ∧
      d.metadata.numTrials ≤ (dispatchRun steps d).metadata.numTrials ∧
      (dispatchRun steps d).metadata.retryLimit = d.metadata.retryLimit := by
  induction steps with
  | nil => exact fun d h => ⟨h, le_refl _, rfl⟩
  | cons s rest ih =>
    intro d h
    obtain ⟨a, b, c⟩ := ih (dispatchStep s.1 s.2 d) (dispatchStep_inv s.1 s.2 d h)
    exact ⟨a, le_trans (dispatchStep_numTrials_mono s.1 s.2 d) b,
           c.trans (dispatchStep_retryLimit_const s.1 s.2 d)⟩

/-- C5: in every execution of the dispatch engine the trial counter is
monotonically non-decreasing (per step and along whole runs), stays at most
`retry_limit + 1` from any invariant-satisfying state — in particular from the
freshly materialized delivery, which satisfies the invariant — and a
rate-limited attempt never increments it. -/
theorem c5_numTrials_monotone_bounded :
    ∀ (steps : List (Nat × DispatchOutcome)) (d : EventDelivery),
      DeliveryInv d →
      (DeliveryInv (dispatchRun steps d) ∧
       d.metadata.numTrials ≤ (dispatchRun steps d).metadata.numTrials ∧
       (dispatchRun steps d).metadata.numTrials ≤ d.metadata.retryLimit + 1) ∧
      (∀ (now : Nat) (o : DispatchOutcome) (e : EventDelivery),
        e.metadata.numTrials ≤ (dispatchStep now o e).metadata.numTrials) ∧
      (∀ (now ra : Nat) (e : EventDelivery),
        (dispatchStep now (.rateLimited ra) e).metadata.numTrials =
          e.metadata.numTrials) ∧
      (∀ rl iv n : Nat, DeliveryInv (newEventDelivery rl iv n)) := by
  intro steps d hinv
  refine ⟨?_, dispatchStep_numTrials_mono, ?_, ?_⟩
  · obtain ⟨a, b, c⟩ := dispatchRun_inv_mono steps d hinv
    exact ⟨a, b, by rw [← c]; exact a.1⟩
  · intro now ra e
    unfold dispatchStep
    by_cases h : e.dispatchable = true
    · rw [if_pos h]
    · rw [if_neg h]
  · intro rl iv n
    exact ⟨Nat.le_add_left 0 _, fun _ => Nat.zero_le _⟩

/-- C5 witness: from a fresh delivery with retry limit 1, the run
failure, rate-limited, failure keeps the invariant, never decreases
`num_trials` and ends at most at `retry_limit + 1`. -/
theorem c5_numTrials_monotone_bounded_witness :
    (DeliveryInv (dispatchRun [(0, .sendFailure), (1, .rateLimited 7), (2, .sendFailure)]
        (newEventDelivery 1 10 0)) ∧
     (newEventDelivery 1 10 0).metadata.numTrials ≤
       (dispatchRun [(0, .sendFailure), (1, .rateLimited 7), (2, .sendFailure)]
         (newEventDelivery 1 10 0)).metadata.numTrials ∧
     (dispatchRun [(0, .sendFailure), (1, .rateLimited 7), (2, .sendFailure)]
         (newEventDelivery 1 10 0)).metadata.numTrials ≤
       (newEventDelivery 1 10 0).metadata.retryLimit + 1) ∧
    (∀ (now : Nat) (o : DispatchOutcome) (e : EventDelivery),
      e.metadata.numTrials ≤ (dispatchStep now o e).metadata.numTrials) ∧
    (∀ (now ra : Nat) (e : EventDelivery),
      (dispatchStep now (.rateLimited ra) e).metadata.numTrials =
        e.metadata.numTrials) ∧
    (∀ rl iv n : Nat, DeliveryInv (newEventDelivery rl iv n)) :=
  c5_numTrials_monotone_bounded [(0, .sendFailure), (1, .rateLimited 7), (2, .sendFailure)]
    (newEventDelivery 1 10 0)
    ⟨Nat.zero_le _, fun _ => Nat.zero_le _⟩
